import Mathlib

/-!
Verification of the hydroponic dosing controller core (state machine and
pump dosing engine). The definitions below are a shallow embedding of
src/state_machine.cpp, state_machine.h, pump.cpp and pump.h:

  * the global `millis()` clock is passed explicitly as a `now : ℕ` argument;
    `uint32_t` subtraction `now - t` is modelled by `u32sub` (wraparound at
    2^32, faithful to C unsigned arithmetic);
  * `float` arithmetic is modelled by exact rational arithmetic `ℚ`; the C
    casts `(uint8_t)`/`(uint32_t)` of the nonnegative float values appearing
    here truncate toward zero, which is `Int.floor` composed with `Int.toNat`
    (`floatTrunc`);
  * the mutable globals (`state_manager`, `pumps[4]`, `pump_system`) and the
    last duty value written by `ledcWrite` per pump become the `World`
    structure, and every C function becomes a function from `World` (plus
    `now` and its arguments) to its result paired with the updated `World`.
-/

/-- Device states, from `SystemState` in state_machine.h. -/
inductive SystemState where
  | STARTUP | INITIALIZING | MONITORING | DOSING
  | CALIBRATING | ERROR | MAINTENANCE | SHUTDOWN
  deriving DecidableEq, Repr

/-- Per-pump states, from `PumpState` in state_machine.h. -/
inductive PumpState where
  | IDLE | PRIMING | DOSING | COOLING_DOWN | ERROR | MAINTENANCE
  deriving DecidableEq, Repr

/-- Sensing subsystem states, from `SensorState` in state_machine.h. -/
inductive SensorState where
  | INITIALIZING | WARMING_UP | READING | FILTERING | READY | ERROR
  deriving DecidableEq, Repr

/-- Calibration mode states, from `CalibrationState` in state_machine.h. -/
inductive CalibrationState where
  | IDLE | ACTIVE
  deriving DecidableEq, Repr

/-- The `state_manager_t` aggregate from state_machine.h: current state and
entry timestamp of every machine (device, four pumps, sensing, calibration). -/
structure StateManager where
  system_state : SystemState
  pump_states : Fin 4 → PumpState
  sensor_state : SensorState
  calibration_state : CalibrationState
  system_state_entry_time : ℕ
  pump_state_entry_times : Fin 4 → ℕ
  sensor_state_entry_time : ℕ
  calibration_state_entry_time : ℕ
  debug_logging_enabled : Bool

/-- `uint32_t` subtraction `a - b` with wraparound at `2^32`
(all `millis()`-derived arithmetic in the source is done on `uint32_t`). -/
def u32sub (a b : ℕ) : ℕ :=
  (a % 2 ^ 32 + (2 ^ 32 - b % 2 ^ 32)) % 2 ^ 32

/-- The Arduino `constrain(amt, low, high)` macro on floats:
`(amt < low) ? low : ((amt > high) ? high : amt)`. -/
def constrainQ (x lo hi : ℚ) : ℚ :=
  if x < lo then lo else if hi < x then hi else x

/-- Floor of a rational as an integer, computed as in `q.num / q.den`
(kernel-reducible form of `Int.floor`). -/
def ratFloor (q : ℚ) : ℤ := q.num / q.den

/-- C cast of a nonnegative `float` value to an unsigned integer type:
truncation toward zero, i.e. the floor for the nonnegative values that
arise in this code. -/
def floatTrunc (q : ℚ) : ℕ := (ratFloor q).toNat

theorem ratFloor_eq_floor (q : ℚ) : ratFloor q = ⌊q⌋ :=
  Rat.floor_def.symm

theorem floatTrunc_eq (q : ℚ) : floatTrunc q = ⌊q⌋.toNat := by
  rw [floatTrunc, ratFloor_eq_floor]

--=============================================================================
-- Transition legality tables (state_machine.cpp, is_valid_*_transition)
--=============================================================================

/-- `is_valid_system_transition` from state_machine.cpp: the escape targets
ERROR / MAINTENANCE / SHUTDOWN are allowed from any state, then the per-state
switch. -/
def is_valid_system_transition : SystemState → SystemState → Bool
  | _, SystemState.ERROR => true
  | _, SystemState.MAINTENANCE => true
  | _, SystemState.SHUTDOWN => true
  | SystemState.STARTUP, SystemState.INITIALIZING => true
  | SystemState.INITIALIZING, SystemState.MONITORING => true
  | SystemState.MONITORING, SystemState.DOSING => true
  | SystemState.MONITORING, SystemState.CALIBRATING => true
  | SystemState.DOSING, SystemState.MONITORING => true
  | SystemState.CALIBRATING, SystemState.MONITORING => true
  | SystemState.ERROR, SystemState.MONITORING => true
  | SystemState.ERROR, SystemState.INITIALIZING => true
  | SystemState.MAINTENANCE, SystemState.MONITORING => true
  | SystemState.SHUTDOWN, SystemState.STARTUP => true
  | _, _ => false

/-- `is_valid_pump_transition` from state_machine.cpp: the escape targets
IDLE / ERROR / MAINTENANCE are allowed from any state, then the per-state
switch (IDLE→PRIMING, PRIMING→DOSING, DOSING→COOLING_DOWN; the remaining
cases of the switch only allow targets already covered by the escapes). -/
def is_valid_pump_transition : PumpState → PumpState → Bool
  | _, PumpState.IDLE => true
  | _, PumpState.ERROR => true
  | _, PumpState.MAINTENANCE => true
  | PumpState.IDLE, PumpState.PRIMING => true
  | PumpState.PRIMING, PumpState.DOSING => true
  | PumpState.DOSING, PumpState.COOLING_DOWN => true
  | _, _ => false

/-- `is_valid_sensor_transition` from state_machine.cpp. -/
def is_valid_sensor_transition : SensorState → SensorState → Bool
  | _, SensorState.ERROR => true
  | SensorState.INITIALIZING, SensorState.READY => true
  | SensorState.WARMING_UP, SensorState.READING => true
  | SensorState.READING, SensorState.FILTERING => true
  | SensorState.FILTERING, SensorState.READY => true
  | SensorState.READY, SensorState.WARMING_UP => true
  | SensorState.ERROR, SensorState.INITIALIZING => true
  | SensorState.ERROR, SensorState.READY => true
  | _, _ => false

--=============================================================================
-- Transition functions (state_machine.cpp)
--=============================================================================

/-- `system_transition_to` from state_machine.cpp: validate against the
legality table; on failure return false leaving the manager untouched, on
success update the state and stamp the entry time with `millis()`. -/
def system_transition_to (now : ℕ) (s : StateManager) (ns : SystemState) :
    Bool × StateManager :=
  if is_valid_system_transition s.system_state ns = true then
    (true, { s with system_state := ns, system_state_entry_time := now })
  else
    (false, s)

/-- `pump_transition_to` from state_machine.cpp (the `pump_index >= 4` guard
is vacuous here because the index is a `Fin 4`). -/
def pump_transition_to (now : ℕ) (s : StateManager) (i : Fin 4)
    (ns : PumpState) : Bool × StateManager :=
  if is_valid_pump_transition (s.pump_states i) ns = true then
    (true, { s with
              pump_states := Function.update s.pump_states i ns,
              pump_state_entry_times :=
                Function.update s.pump_state_entry_times i now })
  else
    (false, s)

/-- `state_machine_emergency_stop` from state_machine.cpp: direct field
assignments, no legality-table lookup — device to ERROR, every pump to IDLE,
sensing to READY, all entry times stamped with `millis()`. -/
def state_machine_emergency_stop (now : ℕ) (s : StateManager) : StateManager :=
  { s with
    system_state := SystemState.ERROR,
    system_state_entry_time := now,
    pump_states := fun _ => PumpState.IDLE,
    pump_state_entry_times := fun _ => now,
    sensor_state := SensorState.READY,
    sensor_state_entry_time := now }

--=============================================================================
-- Pump data model (pump.h)
--=============================================================================

/-- Safety and configuration constants from pump.h. -/
def PUMP_MIN_FLOW_RATE : ℚ := 10
def PUMP_MAX_FLOW_RATE : ℚ := 90
def PUMP_DEFAULT_FLOW_RATE : ℚ := 30
def PUMP_MAX_DOSES_PER_HOUR : ℕ := 3
def PUMP_MIN_DOSE_INTERVAL : ℕ := 300000
def PUMP_MIN_DOSE_VOLUME : ℚ := 5
def PUMP_MAX_DOSE_VOLUME : ℚ := 25
def PUMP_TIMEOUT_MS : ℕ := 600000
def DEFAULT_PH_KP : ℚ := 8
def DEFAULT_PH_KI : ℚ := 1 / 2
def DEFAULT_PH_KD : ℚ := 2
def DEFAULT_PH_TARGET : ℚ := 6
def PID_INTEGRAL_MAX : ℚ := 50
def PID_INTEGRAL_MIN : ℚ := -50

/-- `kHourMs` from pump.cpp: one hour in milliseconds. -/
def kHourMs : ℕ := 3600000

/-- `pid_controller_t` from pump.h: PID calculation state plus per-pump dose
safety tracking. -/
structure PidController where
  kp : ℚ
  ki : ℚ
  kd : ℚ
  target_value : ℚ
  integral : ℚ
  last_error : ℚ
  last_dose_time : ℕ
  doses_this_hour : ℕ
  hour_start : ℕ
  total_ml_dosed : ℚ

/-- `pump_t` from pump.h (the `gpio_pin` / `pwm_channel` hardware fields are
identified with the pump index here). -/
structure Pump where
  controller : PidController
  running : Bool
  start_time : ℕ
  run_duration_ms : ℕ
  target_pwm_duty : ℕ

/-- `pump_system_t` from pump.h. -/
structure PumpSystem where
  auto_ph_control : Bool
  auto_ec_control : Bool
  initialized : Bool

/-- The mutable globals touched by pump.cpp and state_machine.cpp:
`state_manager`, the `pumps[4]` array, `pump_system`, and (modelling the
actuator) the last duty value passed to `ledcWrite` for each pump channel. -/
structure World where
  sm : StateManager
  pumps : Fin 4 → Pump
  sys : PumpSystem
  pwm : Fin 4 → ℕ

/-- Pump indices: `PumpId::PH_UP = 0`, `PH_DOWN = 1`, `NUTRIENT_A = 2`,
`NUTRIENT_B = 3` (pump.h). -/
def PH_UP : Fin 4 := 0
def PH_DOWN : Fin 4 := 1

--=============================================================================
-- Dosing engine (pump.cpp)
--=============================================================================

/-- `calculate_pwm_duty` from pump.cpp: clamp the flow rate to
[5.2, 90] ml/min, map linearly to a duty percentage
(5.2 ml/min = 10 %, 90 ml/min = 100 %), and convert to an 8-bit value. -/
def calculate_pwm_duty (flow_rate_ml_per_min : ℚ) : ℕ :=
  let r := constrainQ flow_rate_ml_per_min (26 / 5) PUMP_MAX_FLOW_RATE
  let duty_percent := 10 + (r - 26 / 5) * 90 / (424 / 5)
  floatTrunc (duty_percent * 255 / 100)

/-- `can_dose_safely` from pump.cpp, checked in source order: pump state must
be IDLE; at least `PUMP_MIN_DOSE_INTERVAL` ms since the last dose; the hourly
counter is reset (and its window restarted at `now`) once the hour window has
elapsed; fewer than `PUMP_MAX_DOSES_PER_HOUR` doses in the window; device
state must be MONITORING or DOSING. Returns the verdict together with the
pump record (mutated through the pointer when the hour window rolls over). -/
def can_dose_safely (now : ℕ) (sm : StateManager) (i : Fin 4) (p : Pump) :
    Bool × Pump :=
  if sm.pump_states i ≠ PumpState.IDLE then (false, p)
  else if u32sub now p.controller.last_dose_time < PUMP_MIN_DOSE_INTERVAL then
    (false, p)
  else
    let c1 := { p.controller with doses_this_hour := 0, hour_start := now }
    let p1 : Pump :=
      if kHourMs ≤ u32sub now p.controller.hour_start then
        { p with controller := c1 }
      else p
    if PUMP_MAX_DOSES_PER_HOUR ≤ p1.controller.doses_this_hour then (false, p1)
    else if sm.system_state ≠ SystemState.MONITORING ∧
        sm.system_state ≠ SystemState.DOSING then (false, p1)
    else (true, p1)

/-- `calculate_pid_dose` from pump.cpp: update the clamped integral and the
last error through the pointer, form `kp*error + ki*integral + kd*derivative`,
scale the magnitude by `volume/10`, and clamp the result to
[PUMP_MIN_DOSE_VOLUME, PUMP_MAX_DOSE_VOLUME]. Returns the dose with the
updated controller. -/
def calculate_pid_dose (pid : PidController) (current_value volume_liters : ℚ) :
    ℚ × PidController :=
  let error := pid.target_value - current_value
  let integral := constrainQ (pid.integral + error) PID_INTEGRAL_MIN PID_INTEGRAL_MAX
  let derivative := error - pid.last_error
  let output := pid.kp * error + pid.ki * integral + pid.kd * derivative
  let dose_ml := |output| * (volume_liters / 10)
  (constrainQ dose_ml PUMP_MIN_DOSE_VOLUME PUMP_MAX_DOSE_VOLUME,
   { pid with integral := integral, last_error := error })

/-- `start_pump_dose` from pump.cpp: requires the pump IDLE; stores the run
duration `(dose_ml / flow_rate) * 60000` (uint32 cast), clamped to
`PUMP_TIMEOUT_MS`; requests the PRIMING transition; on success stores the
target duty and the dose-acceptance bookkeeping (last-dose time, hourly
counter, lifetime total). The run duration is written through the pointer
before the transition is attempted, as in the source. -/
def start_pump_dose (now : ℕ) (w : World) (i : Fin 4)
    (dose_ml flow_rate : ℚ) : Bool × World :=
  if w.sm.pump_states i ≠ PumpState.IDLE then (false, w)
  else
    let run0 := floatTrunc (dose_ml / flow_rate * 60000)
    let run := if PUMP_TIMEOUT_MS < run0 then PUMP_TIMEOUT_MS else run0
    let duty := calculate_pwm_duty flow_rate
    let pr := { w.pumps i with run_duration_ms := run }
    let w1 := { w with pumps := Function.update w.pumps i pr }
    let t := pump_transition_to now w1.sm i PumpState.PRIMING
    if t.1 = false then (false, { w1 with sm := t.2 })
    else
      let p := w1.pumps i
      let c := { p.controller with
        last_dose_time := now,
        doses_this_hour := p.controller.doses_this_hour + 1,
        total_ml_dosed := p.controller.total_ml_dosed + dose_ml }
      let p1 := { p with
        target_pwm_duty := duty, start_time := now, controller := c }
      (true, { w1 with sm := t.2, pumps := Function.update w1.pumps i p1 })

/-- `pump_ph_dose` from pump.cpp: require the system initialized with
automatic pH control on; validate the measurement (volume in [5, 200] L, pH
in [4, 9]); pick PH_DOWN when the reading is above the PH_UP target, else
PH_UP; run the `can_dose_safely` gate; compute the PID dose; skip when the
dose is below `PUMP_MIN_DOSE_VOLUME` (note `calculate_pid_dose` has already
clamped the dose to at least that bound); otherwise start the dose at the
default flow rate. -/
def pump_ph_dose (now : ℕ) (w : World) (current_ph volume_liters : ℚ) :
    Bool × World :=
  if w.sys.initialized = false ∨ w.sys.auto_ph_control = false then (false, w)
  else if volume_liters < 5 ∨ 200 < volume_liters then (false, w)
  else if current_ph < 4 ∨ 9 < current_ph then (false, w)
  else
    let i : Fin 4 :=
      if (w.pumps PH_UP).controller.target_value < current_ph then PH_DOWN
      else PH_UP
    let g := can_dose_safely now w.sm i (w.pumps i)
    let w1 := { w with pumps := Function.update w.pumps i g.2 }
    if g.1 = false then (false, w1)
    else
      let dc := calculate_pid_dose g.2.controller current_ph volume_liters
      let p2 := { g.2 with controller := dc.2 }
      let w2 := { w1 with pumps := Function.update w1.pumps i p2 }
      if dc.1 < PUMP_MIN_DOSE_VOLUME then (false, w2)
      else start_pump_dose now w2 i dc.1 PUMP_DEFAULT_FLOW_RATE

/-- `pump_set_ph_target` from pump.cpp: clamp the requested target to
[5, 8] and store it in every pump controller, resetting each integral and
last error. -/
def pump_set_ph_target (w : World) (target_ph : ℚ) : World :=
  let t := constrainQ target_ph 5 8
  let setOne : Pump → Pump := fun p =>
    { p with controller :=
        { p.controller with target_value := t, integral := 0, last_error := 0 } }
  { w with pumps := fun i => setOne (w.pumps i) }

/-- `pump_get_ph_target` from pump.cpp: report the PH_UP controller target. -/
def pump_get_ph_target (w : World) : ℚ :=
  (w.pumps PH_UP).controller.target_value

/-- `pump_manual_dose` from pump.cpp: require initialization, clamp the dose
to [PUMP_MIN_DOSE_VOLUME, PUMP_MAX_DOSE_VOLUME], run the gate, and start at
the default flow rate. The gate can mutate the pump record (hour rollover)
even when it blocks. -/
def pump_manual_dose (now : ℕ) (w : World) (i : Fin 4) (ml : ℚ) :
    Bool × World :=
  if w.sys.initialized = false then (false, w)
  else
    let ml1 := constrainQ ml PUMP_MIN_DOSE_VOLUME PUMP_MAX_DOSE_VOLUME
    let g := can_dose_safely now w.sm i (w.pumps i)
    let w1 := { w with pumps := Function.update w.pumps i g.2 }
    if g.1 = false then (false, w1)
    else start_pump_dose now w1 i ml1 PUMP_DEFAULT_FLOW_RATE

/-- `pump_start_manual` from pump.cpp: require initialization and the pump
IDLE; clamp the rate to [PUMP_MIN_FLOW_RATE, PUMP_MAX_FLOW_RATE] and store
the corresponding duty; then request an IDLE → DOSING transition (the stored
duty write precedes the transition attempt, as in the source); on transition
success write the duty, set the running flag and a
`PUMP_TIMEOUT_MS` run duration. -/
def pump_start_manual (now : ℕ) (w : World) (i : Fin 4) (ml_per_min : ℚ) :
    Bool × World :=
  if w.sys.initialized = false then (false, w)
  else if w.sm.pump_states i ≠ PumpState.IDLE then (false, w)
  else
    let rate := constrainQ ml_per_min PUMP_MIN_FLOW_RATE PUMP_MAX_FLOW_RATE
    let duty := calculate_pwm_duty rate
    let pd := { w.pumps i with target_pwm_duty := duty }
    let w1 := { w with pumps := Function.update w.pumps i pd }
    let t := pump_transition_to now w1.sm i PumpState.DOSING
    if t.1 = false then (false, { w1 with sm := t.2 })
    else
      let p1 := { w1.pumps i with
        target_pwm_duty := duty,
        running := true,
        start_time := now,
        run_duration_ms := PUMP_TIMEOUT_MS }
      (true, { w1 with
        sm := t.2,
        pwm := Function.update w1.pwm i duty,
        pumps := Function.update w1.pumps i p1 })

/-- `pump_stop_manual` from pump.cpp: zero the duty output, clear the running
flag and timing fields, then request COOLING_DOWN when the pump was DOSING or
PRIMING and IDLE otherwise (the transition result is ignored), and return
true. -/
def pump_stop_manual (now : ℕ) (w : World) (i : Fin 4) : Bool × World :=
  let p0 := { w.pumps i with
    running := false, start_time := 0, run_duration_ms := 0 }
  let w1 := { w with
    pwm := Function.update w.pwm i 0,
    pumps := Function.update w.pumps i p0 }
  let target :=
    if w1.sm.pump_states i = PumpState.DOSING ∨
        w1.sm.pump_states i = PumpState.PRIMING then
      PumpState.COOLING_DOWN
    else PumpState.IDLE
  (true, { w1 with sm := (pump_transition_to now w1.sm i target).2 })

--=============================================================================
-- Pump sequencer (pump_update from pump.cpp)
--=============================================================================

/-- The per-pump slice of the `World` read and written by one iteration of
the `pump_update` loop: the pump state and entry time held by the state
manager, the pump record, and the duty output. -/
structure PumpView where
  st : PumpState
  entry : ℕ
  pump : Pump
  pwm : ℕ

/-- The slice of `World` belonging to pump `i`. -/
def viewOf (w : World) (i : Fin 4) : PumpView :=
  ⟨w.sm.pump_states i, w.sm.pump_state_entry_times i, w.pumps i, w.pwm i⟩

/-- One iteration of the `pump_update` loop body (pump.cpp), acting on the
slice of pump `i`. `state_duration` is the state-manager entry-time
difference, as computed by `pump_get_state_duration_ms`. The two transition
requests go through the legality check of `pump_transition_to`; a rejected
request leaves the slice as already written. -/
def pumpUpdateOne (now : ℕ) (v : PumpView) : PumpView :=
  let state_duration := u32sub now v.entry
  match v.st with
  | PumpState.IDLE => { v with pwm := 0, pump := { v.pump with running := false } }
  | PumpState.PRIMING =>
      if state_duration < 2500 then
        { v with pwm := floatTrunc (255 * (25 / 100)),
                 pump := { v.pump with running := true } }
      else if is_valid_pump_transition PumpState.PRIMING PumpState.DOSING = true then
        { v with st := PumpState.DOSING, entry := now }
      else v
  | PumpState.DOSING =>
      if state_duration < v.pump.run_duration_ms then
        { v with
          pwm := if state_duration = 0 then v.pump.target_pwm_duty else v.pwm,
          pump := { v.pump with running := true } }
      else
        let v1 := { v with pwm := 0, pump := { v.pump with running := false } }
        if is_valid_pump_transition PumpState.DOSING PumpState.COOLING_DOWN = true then
          { v1 with st := PumpState.COOLING_DOWN, entry := now }
        else v1
  | PumpState.COOLING_DOWN =>
      { v with pwm := 0, pump := { v.pump with running := false } }
  | PumpState.ERROR =>
      { v with pwm := 0, pump := { v.pump with running := false } }
  | PumpState.MAINTENANCE => v

/-- `pump_update` from pump.cpp: nothing happens unless the system is
initialized; otherwise each iteration of the loop reads and writes only the
slice of pump `i`, so the sequential loop is the componentwise map of
`pumpUpdateOne` over the four slices. -/
def pump_update (now : ℕ) (w : World) : World :=
  if w.sys.initialized = false then w
  else
    { w with
      sm := { w.sm with
        pump_states := fun i => (pumpUpdateOne now (viewOf w i)).st,
        pump_state_entry_times := fun i => (pumpUpdateOne now (viewOf w i)).entry },
      pumps := fun i => (pumpUpdateOne now (viewOf w i)).pump,
      pwm := fun i => (pumpUpdateOne now (viewOf w i)).pwm }

--=============================================================================
-- Concrete states used as test vectors
--=============================================================================

/-- A freshly constructed controller, as built by the `pid_controller_t`
default constructor (pump.h): default gains 8 / 0.5 / 2, target 6.0, zero
integral, error and dose history  (boot-time `millis()` taken as 0). -/
def defaultController : PidController :=
  { kp := DEFAULT_PH_KP, ki := DEFAULT_PH_KI, kd := DEFAULT_PH_KD,
    target_value := DEFAULT_PH_TARGET, integral := 0, last_error := 0,
    last_dose_time := 0, doses_this_hour := 0, hour_start := 0,
    total_ml_dosed := 0 }

/-- A freshly constructed pump record (`pump_t` default constructor). -/
def defaultPump : Pump :=
  { controller := defaultController, running := false, start_time := 0,
    run_duration_ms := 0, target_pwm_duty := 0 }

/-- A state manager with the device MONITORING and everything else settled
(pumps IDLE, sensing READY), all entry times 0. -/
def baseManager : StateManager :=
  { system_state := SystemState.MONITORING,
    pump_states := fun _ => PumpState.IDLE,
    sensor_state := SensorState.READY,
    calibration_state := CalibrationState.IDLE,
    system_state_entry_time := 0,
    pump_state_entry_times := fun _ => 0,
    sensor_state_entry_time := 0,
    calibration_state_entry_time := 0,
    debug_logging_enabled := true }

/-- An initialized world in MONITORING with automatic pH control enabled and
four fresh pumps: every `can_dose_safely` gate passes at `now = 1000000`. -/
def baseWorld : World :=
  { sm := baseManager,
    pumps := fun _ => defaultPump,
    sys := { auto_ph_control := true, auto_ec_control := false,
             initialized := true },
    pwm := fun _ => 0 }

/-- `baseWorld` with pump 0 in PRIMING. -/
def primingWorld : World :=
  { baseWorld with sm := { baseManager with
      pump_states := fun j => if j = 0 then PumpState.PRIMING else PumpState.IDLE } }

/-- `baseWorld` with pump 0 mid-dose: state DOSING entered at time 0, stored
run duration 42000 ms, stored target duty 92, that duty already on the
output. -/
def dosingWorld : World :=
  { baseWorld with
    sm := { baseManager with
      pump_states := fun j => if j = 0 then PumpState.DOSING else PumpState.IDLE },
    pumps := fun j => if j = 0 then
        { defaultPump with run_duration_ms := 42000, target_pwm_duty := 92 }
      else defaultPump,
    pwm := fun j => if j = 0 then 92 else 0 }

--=============================================================================
-- C3, C4, C9
--=============================================================================

/-- C3: from every prior configuration, one call of
`state_machine_emergency_stop` leaves the device in Error, all four pumps in
Idle and the sensing machine in Ready; the function is total (never fails)
and, by its definition, assigns these states directly without consulting the
legality tables. -/
theorem emergency_stop_forces_safe_states (s : StateManager) (now : ℕ) :
    (state_machine_emergency_stop now s).system_state = SystemState.ERROR
    ∧ (∀ i : Fin 4,
        (state_machine_emergency_stop now s).pump_states i = PumpState.IDLE)
    ∧ (state_machine_emergency_stop now s).sensor_state = SensorState.READY :=
  ⟨rfl, fun _ => rfl, rfl⟩

/-- C4: a requested transition whose target is not permitted by the legality
table for the current state returns false and leaves the machine record
completely unchanged (same state value, same entry timestamp) — for the
device machine and for each pump machine. -/
theorem illegal_transition_rejected_unchanged :
    (∀ (s : StateManager) (now : ℕ) (ns : SystemState),
        is_valid_system_transition s.system_state ns = false →
          system_transition_to now s ns = (false, s))
    ∧ (∀ (s : StateManager) (now : ℕ) (i : Fin 4) (ns : PumpState),
        is_valid_pump_transition (s.pump_states i) ns = false →
          pump_transition_to now s i ns = (false, s)) := by
  constructor
  · intro s now ns h
    simp [system_transition_to, h]
  · intro s now i ns h
    simp [pump_transition_to, h]

/-- Witness for C4: concrete rejected transitions (MONITORING → STARTUP for
the device, IDLE → DOSING for pump 0) leave `baseManager` untouched. -/
theorem illegal_transition_rejected_unchanged_witness :
    system_transition_to 5 baseManager SystemState.STARTUP = (false, baseManager)
    ∧ pump_transition_to 7 baseManager 0 PumpState.DOSING = (false, baseManager) :=
  ⟨illegal_transition_rejected_unchanged.1 baseManager 5 SystemState.STARTUP
      (by decide),
   illegal_transition_rejected_unchanged.2 baseManager 7 0 PumpState.DOSING
      (by decide)⟩

/-- C9: `pump_set_ph_target t` stores `clamp(t, 5, 8)` — not `t` itself — as
the target of all four controllers, resets every integral and last error to
zero, and `pump_get_ph_target` then reports that clamped value. -/
theorem set_ph_target_clamps_and_resets (w : World) (t : ℚ) :
    (∀ i : Fin 4,
        ((pump_set_ph_target w t).pumps i).controller.target_value
            = constrainQ t 5 8
        ∧ ((pump_set_ph_target w t).pumps i).controller.integral = 0
        ∧ ((pump_set_ph_target w t).pumps i).controller.last_error = 0)
    ∧ pump_get_ph_target (pump_set_ph_target w t) = constrainQ t 5 8 :=
  ⟨fun _ => ⟨rfl, rfl, rfl⟩, rfl⟩

--=============================================================================
-- C10 (manual stop) and C2 (manual start)
--=============================================================================

/-- C10 counterexample: with pump 0 in PRIMING, `pump_stop_manual` does not
put it into COOLING_DOWN — the PRIMING → COOLING_DOWN request is rejected by
the legality table and the pump stays in PRIMING. -/
theorem stop_manual_from_priming_counterexample :
    (pump_stop_manual 1000 primingWorld 0).2.sm.pump_states 0
        = PumpState.PRIMING
    ∧ ¬ ((pump_stop_manual 1000 primingWorld 0).2.sm.pump_states 0
        = PumpState.COOLING_DOWN) := by
  constructor
  · decide
  · decide

/-- C10 (amended): `pump_stop_manual` always returns true, zeroes the duty
output and the running flag; a DOSING pump is moved to COOLING_DOWN, a
PRIMING pump stays in PRIMING (its COOLING_DOWN request is rejected by the
legality table), and a pump in any other state is moved to IDLE. -/
theorem stop_manual_stops_and_transitions (w : World) (now : ℕ) (i : Fin 4) :
    (pump_stop_manual now w i).1 = true
    ∧ (pump_stop_manual now w i).2.pwm i = 0
    ∧ ((pump_stop_manual now w i).2.pumps i).running = false
    ∧ (w.sm.pump_states i = PumpState.DOSING →
        (pump_stop_manual now w i).2.sm.pump_states i = PumpState.COOLING_DOWN)
    ∧ (w.sm.pump_states i = PumpState.PRIMING →
        (pump_stop_manual now w i).2.sm.pump_states i = PumpState.PRIMING)
    ∧ (w.sm.pump_states i ≠ PumpState.DOSING →
        w.sm.pump_states i ≠ PumpState.PRIMING →
        (pump_stop_manual now w i).2.sm.pump_states i = PumpState.IDLE) := by
  cases h : w.sm.pump_states i <;>
    simp [pump_stop_manual, pump_transition_to, is_valid_pump_transition, h,
      Function.update_same]

/-- Witness for C10: a DOSING pump lands in COOLING_DOWN, an IDLE pump in
IDLE, and the call reports success. -/
theorem stop_manual_stops_and_transitions_witness :
    (pump_stop_manual 3 dosingWorld 0).1 = true
    ∧ (pump_stop_manual 3 dosingWorld 0).2.sm.pump_states 0
        = PumpState.COOLING_DOWN
    ∧ (pump_stop_manual 5 baseWorld 1).2.sm.pump_states 1 = PumpState.IDLE :=
  ⟨(stop_manual_stops_and_transitions dosingWorld 3 0).1,
   (stop_manual_stops_and_transitions dosingWorld 3 0).2.2.2.1 (by decide),
   (stop_manual_stops_and_transitions baseWorld 5 1).2.2.2.2.2 (by decide)
      (by decide)⟩

/-- C2 counterexample: in `baseWorld` every `can_dose_safely` gate passes for
pump 0 at `now = 1000000` (IDLE, 1000000 ms since the last dose, 0 doses this
hour, device MONITORING), yet `pump_start_manual` returns false and the pump
stays IDLE — the claimed equivalence with the gates fails. -/
theorem start_manual_gates_pass_counterexample :
    (can_dose_safely 1000000 baseWorld.sm 0 (baseWorld.pumps 0)).1 = true
    ∧ (pump_start_manual 1000000 baseWorld 0 30).1 = false
    ∧ (pump_start_manual 1000000 baseWorld 0 30).2.sm.pump_states 0
        = PumpState.IDLE := by
  refine ⟨by decide, by decide, by decide⟩

/-- C2 (amended): from IDLE (with a valid pump id and the system
initialized), `pump_start_manual` always returns false and the pump stays
IDLE with its duty output and running flag untouched: the function checks
only the IDLE state — never the dose-interval, hourly-quota or device-state
gates — and its IDLE → DOSING transition request is always rejected by the
legality table. -/
theorem start_manual_always_fails_from_idle (w : World) (now : ℕ) (i : Fin 4)
    (rate : ℚ)
    (hinit : w.sys.initialized = true)
    (hidle : w.sm.pump_states i = PumpState.IDLE) :
    (pump_start_manual now w i rate).1 = false
    ∧ (pump_start_manual now w i rate).2.sm = w.sm
    ∧ (pump_start_manual now w i rate).2.pwm = w.pwm
    ∧ ((pump_start_manual now w i rate).2.pumps i).running
        = (w.pumps i).running := by
  simp [pump_start_manual, hinit, hidle, pump_transition_to,
    is_valid_pump_transition, Function.update_same]

/-- Witness for C2: the amended statement at `baseWorld`, pump 0, rate 30. -/
theorem start_manual_always_fails_from_idle_witness :
    (pump_start_manual 1000000 baseWorld 0 30).1 = false
    ∧ (pump_start_manual 1000000 baseWorld 0 30).2.sm = baseWorld.sm :=
  ⟨(start_manual_always_fails_from_idle baseWorld 1000000 0 30 rfl rfl).1,
   (start_manual_always_fails_from_idle baseWorld 1000000 0 30 rfl rfl).2.1⟩

--=============================================================================
-- C5 (can_dose gates)
--=============================================================================

/-- A blocked `can_dose_safely` (pump not IDLE, or dose interval not yet
elapsed) leaves the pump record untouched: both early exits precede the
hour-window rollover write. -/
theorem can_dose_blocked_early_no_mutation (now : ℕ) (sm : StateManager)
    (i : Fin 4) (p : Pump)
    (h : u32sub now p.controller.last_dose_time < PUMP_MIN_DOSE_INTERVAL) :
    can_dose_safely now sm i p = (false, p) := by
  unfold can_dose_safely
  split_ifs <;> simp_all

/-- C5: `can_dose_safely` passes exactly when — in the order checked by the
source — the pump is IDLE, at least 300000 ms have elapsed since its last
accepted dose, its rolling-hour counter (read as 0 when the 3600000 ms
window has elapsed, since the check resets it and restarts the window at the
current time) is below 3, and the device is MONITORING or DOSING.
Moreover a pump whose last dose was 100000 ms ago fails the gate, and a
subsequent dose attempt (`pump_manual_dose`, the gate-checked dose entry
point) is a no-op: it returns false and the world is unchanged. -/
theorem can_dose_gate_spec :
    (∀ (now : ℕ) (sm : StateManager) (i : Fin 4) (p : Pump),
        (can_dose_safely now sm i p).1 = true ↔
          (sm.pump_states i = PumpState.IDLE
            ∧ PUMP_MIN_DOSE_INTERVAL ≤ u32sub now p.controller.last_dose_time
            ∧ (if kHourMs ≤ u32sub now p.controller.hour_start then 0
                else p.controller.doses_this_hour) < PUMP_MAX_DOSES_PER_HOUR
            ∧ (sm.system_state = SystemState.MONITORING
                ∨ sm.system_state = SystemState.DOSING)))
    ∧ (∀ (w : World) (now : ℕ) (i : Fin 4) (ml : ℚ),
        u32sub now (w.pumps i).controller.last_dose_time = 100000 →
          (can_dose_safely now w.sm i (w.pumps i)).1 = false
          ∧ pump_manual_dose now w i ml = (false, w)) := by
  constructor
  · intro now sm i p
    simp only [can_dose_safely]
    rcases eq_or_ne (sm.pump_states i) PumpState.IDLE with h1 | h1
    · rw [if_neg (by simp [h1])]
      rcases Nat.lt_or_ge (u32sub now p.controller.last_dose_time)
          PUMP_MIN_DOSE_INTERVAL with h2 | h2
      · rw [if_pos h2]
        simp only [Prod.fst]
        constructor
        · intro hfalse
          exact absurd hfalse (by simp)
        · rintro ⟨-, hge, -, -⟩
          omega
      · rw [if_neg (Nat.not_lt.mpr h2)]
        rcases Nat.lt_or_ge (u32sub now p.controller.hour_start) kHourMs
            with h3 | h3
        · rw [if_neg (Nat.not_le.mpr h3)]
          rcases Nat.lt_or_ge p.controller.doses_this_hour
              PUMP_MAX_DOSES_PER_HOUR with h4 | h4
          · rw [if_neg (Nat.not_le.mpr h4)]
            by_cases h5 : sm.system_state ≠ SystemState.MONITORING
                ∧ sm.system_state ≠ SystemState.DOSING
            · rw [if_pos h5]
              simp only [Prod.fst]
              constructor
              · intro hfalse
                exact absurd hfalse (by simp)
              · rintro ⟨-, -, -, h⟩
                tauto
            · rw [if_neg h5]
              simp only [Prod.fst]
              constructor
              · intro _
                exact ⟨h1, h2,
                  by rw [if_neg (Nat.not_le.mpr h3)]; exact h4, by tauto⟩
              · intro _
                trivial
          · rw [if_pos h4]
            simp only [Prod.fst]
            constructor
            · intro hfalse
              exact absurd hfalse (by simp)
            · rintro ⟨-, -, hlt, -⟩
              rw [if_neg (Nat.not_le.mpr h3)] at hlt
              omega
        · rw [if_pos h3]
          rw [if_neg (by norm_num [PUMP_MAX_DOSES_PER_HOUR])]
          by_cases h5 : sm.system_state ≠ SystemState.MONITORING
              ∧ sm.system_state ≠ SystemState.DOSING
          · rw [if_pos h5]
            simp only [Prod.fst]
            constructor
            · intro hfalse
              exact absurd hfalse (by simp)
            · rintro ⟨-, -, -, h⟩
              tauto
          · rw [if_neg h5]
            simp only [Prod.fst]
            constructor
            · intro _
              exact ⟨h1, h2,
                by rw [if_pos h3]; norm_num [PUMP_MAX_DOSES_PER_HOUR],
                by tauto⟩
            · intro _
              trivial
    · rw [if_pos (by simp [h1])]
      simp [h1]
  · intro w now i ml h
    have hlt : u32sub now (w.pumps i).controller.last_dose_time
        < PUMP_MIN_DOSE_INTERVAL := by
      rw [h]; norm_num [PUMP_MIN_DOSE_INTERVAL]
    have hg := can_dose_blocked_early_no_mutation now w.sm i (w.pumps i) hlt
    refine ⟨by rw [hg], ?_⟩
    cases hinit : w.sys.initialized with
    | false => simp [pump_manual_dose, hinit]
    | true => simp [pump_manual_dose, hinit, hg, Function.update_eq_self]

/-- Witness for C5: in `baseWorld` at `now = 100000` the last dose of pump 0
was 100000 ms ago; the gate blocks and `pump_manual_dose` changes nothing. -/
theorem can_dose_gate_spec_witness :
    (can_dose_safely 100000 baseWorld.sm 0 (baseWorld.pumps 0)).1 = false
    ∧ pump_manual_dose 100000 baseWorld 0 10 = (false, baseWorld) :=
  can_dose_gate_spec.2 baseWorld 100000 0 10 (by decide)

--=============================================================================
-- C7 (duty mapping)
--=============================================================================

theorem constrainQ_mono {lo hi : ℚ} (hlh : lo ≤ hi) {x y : ℚ} (hxy : x ≤ y) :
    constrainQ x lo hi ≤ constrainQ y lo hi := by
  unfold constrainQ
  split_ifs <;> linarith

theorem constrainQ_le_hi {lo hi : ℚ} (hlh : lo ≤ hi) (x : ℚ) :
    constrainQ x lo hi ≤ hi := by
  unfold constrainQ
  split_ifs <;> linarith

theorem constrainQ_of_le_lo {lo hi x : ℚ} (hlh : lo ≤ hi) (h : x ≤ lo) :
    constrainQ x lo hi = lo := by
  unfold constrainQ
  split_ifs <;> linarith

theorem constrainQ_of_hi_le {lo hi x : ℚ} (hlh : lo ≤ hi) (h : hi ≤ x) :
    constrainQ x lo hi = hi := by
  unfold constrainQ
  split_ifs <;> linarith

theorem floatTrunc_mono {a b : ℚ} (h : a ≤ b) : floatTrunc a ≤ floatTrunc b := by
  rw [floatTrunc_eq, floatTrunc_eq]
  exact Int.toNat_le_toNat (Int.floor_le_floor h)

theorem floatTrunc_le_of_le {a : ℚ} {n : ℕ} (h : a ≤ (n : ℚ)) :
    floatTrunc a ≤ n := by
  rw [floatTrunc_eq]
  refine Int.toNat_le.mpr ?_
  have := Int.floor_le_floor h
  rwa [Int.floor_natCast] at this

/-- Unfolding equation for `calculate_pwm_duty`. -/
theorem calculate_pwm_duty_eq (r : ℚ) :
    calculate_pwm_duty r =
      floatTrunc ((10 + (constrainQ r (26 / 5) 90 - 26 / 5) * 90 / (424 / 5))
        * 255 / 100) := by
  simp only [calculate_pwm_duty, PUMP_MAX_FLOW_RATE]

/-- Duty at the lower clamp point 5.2 ml/min: the percentage is 10, the
8-bit value is `trunc(25.5) = 25`. -/
theorem calculate_pwm_duty_at_52 : calculate_pwm_duty (26 / 5) = 25 := by
  rw [calculate_pwm_duty_eq,
    constrainQ_of_le_lo (by norm_num) (le_refl (26 / 5 : ℚ))]
  have h : ((10 + ((26 : ℚ) / 5 - 26 / 5) * 90 / (424 / 5)) * 255 / 100 : ℚ)
      = 51 / 2 := by norm_num
  rw [h, floatTrunc_eq, show ⌊(51 / 2 : ℚ)⌋ = 25 by norm_num]
  rfl

/-- Duty at the upper clamp point 90 ml/min: the percentage is 100, the
8-bit value is 255. -/
theorem calculate_pwm_duty_at_90 : calculate_pwm_duty 90 = 255 := by
  rw [calculate_pwm_duty_eq,
    constrainQ_of_hi_le (by norm_num) (le_refl (90 : ℚ))]
  have h : ((10 + ((90 : ℚ) - 26 / 5) * 90 / (424 / 5)) * 255 / 100 : ℚ)
      = 255 := by norm_num
  rw [h, floatTrunc_eq, show ⌊(255 : ℚ)⌋ = 255 by norm_num]
  rfl

/-- C7: the flow-rate-to-duty map is monotone non-decreasing, bounded by 255
(it is ℕ-valued, hence also ≥ 0), sends 5.2 ml/min to 25 — within one count
of 10 percent of 255 — sends 90 ml/min to 255, and clamps every rate outside
[5.2, 90] to the value at the nearest bound. -/
theorem pwm_duty_monotone_bounded_clamped :
    (∀ r1 r2 : ℚ, r1 ≤ r2 → calculate_pwm_duty r1 ≤ calculate_pwm_duty r2)
    ∧ (∀ r : ℚ, calculate_pwm_duty r ≤ 255)
    ∧ calculate_pwm_duty (26 / 5) = 25
    ∧ |(calculate_pwm_duty (26 / 5) : ℚ) - 255 * (10 / 100)| ≤ 1 / 2
    ∧ calculate_pwm_duty 90 = 255
    ∧ (∀ r : ℚ, r ≤ 26 / 5 →
        calculate_pwm_duty r = calculate_pwm_duty (26 / 5))
    ∧ (∀ r : ℚ, 90 ≤ r → calculate_pwm_duty r = 255) := by
  refine ⟨?_, ?_, calculate_pwm_duty_at_52, ?_, calculate_pwm_duty_at_90,
    ?_, ?_⟩
  · intro r1 r2 h
    rw [calculate_pwm_duty_eq, calculate_pwm_duty_eq]
    have hc := @constrainQ_mono (26 / 5) 90 (by norm_num) r1 r2 h
    exact floatTrunc_mono (by linarith)
  · intro r
    rw [calculate_pwm_duty_eq]
    have hc := @constrainQ_le_hi (26 / 5) 90 (by norm_num) r
    exact @floatTrunc_le_of_le _ 255 (by push_cast; linarith)
  · rw [calculate_pwm_duty_at_52, abs_le]
    constructor <;> norm_num
  · intro r h
    rw [calculate_pwm_duty_eq, calculate_pwm_duty_eq,
      constrainQ_of_le_lo (by norm_num) h,
      constrainQ_of_le_lo (by norm_num) (le_refl (26 / 5 : ℚ))]
  · intro r h
    rw [calculate_pwm_duty_eq, constrainQ_of_hi_le (by norm_num) h]
    have h2 : ((10 + ((90 : ℚ) - 26 / 5) * 90 / (424 / 5)) * 255 / 100 : ℚ)
        = 255 := by norm_num
    rw [h2, floatTrunc_eq, show ⌊(255 : ℚ)⌋ = 255 by norm_num]
    rfl

/-- Witness for C7: monotonicity and the clamp equalities at concrete
rates. -/
theorem pwm_duty_monotone_bounded_clamped_witness :
    calculate_pwm_duty 10 ≤ calculate_pwm_duty 20
    ∧ calculate_pwm_duty 1 = calculate_pwm_duty (26 / 5)
    ∧ calculate_pwm_duty 1000 = 255 :=
  ⟨pwm_duty_monotone_bounded_clamped.1 10 20 (by norm_num),
   pwm_duty_monotone_bounded_clamped.2.2.2.2.2.1 1 (by norm_num),
   pwm_duty_monotone_bounded_clamped.2.2.2.2.2.2 1000 (by norm_num)⟩

--=============================================================================
-- C8 (sequencer behavior in DOSING)
--=============================================================================

/-- C8: for a pump in DOSING, one `pump_update` call (a) at the moment of
entering the state (time-in-state 0, still below the run duration) writes
the stored target duty to the actuator and keeps the pump DOSING and
running; (b) strictly inside the run window (0 < time-in-state < run
duration) leaves the actuator output exactly as it was — the duty is written
only at entry — and keeps the pump DOSING and running; (c) once time-in-state
reaches the run duration, forces the output to zero, clears the running flag
and moves the pump to COOLING_DOWN (a transition the legality table
accepts), restamping its entry time. -/
theorem pump_update_dosing_phase (w : World) (now : ℕ) (i : Fin 4)
    (hinit : w.sys.initialized = true)
    (hst : w.sm.pump_states i = PumpState.DOSING) :
    (u32sub now (w.sm.pump_state_entry_times i) < (w.pumps i).run_duration_ms →
      u32sub now (w.sm.pump_state_entry_times i) = 0 →
        (pump_update now w).pwm i = (w.pumps i).target_pwm_duty
        ∧ (pump_update now w).sm.pump_states i = PumpState.DOSING
        ∧ ((pump_update now w).pumps i).running = true)
    ∧ (u32sub now (w.sm.pump_state_entry_times i) < (w.pumps i).run_duration_ms →
        u32sub now (w.sm.pump_state_entry_times i) ≠ 0 →
          (pump_update now w).pwm i = w.pwm i
          ∧ (pump_update now w).sm.pump_states i = PumpState.DOSING
          ∧ ((pump_update now w).pumps i).running = true)
    ∧ ((w.pumps i).run_duration_ms ≤ u32sub now (w.sm.pump_state_entry_times i) →
        (pump_update now w).pwm i = 0
        ∧ ((pump_update now w).pumps i).running = false
        ∧ (pump_update now w).sm.pump_states i = PumpState.COOLING_DOWN
        ∧ (pump_update now w).sm.pump_state_entry_times i = now) := by
  refine ⟨fun hlt hz => ?_, fun hlt hnz => ?_, fun hge => ?_⟩
  · have hpos : 0 < (w.pumps i).run_duration_ms := by omega
    simp [pump_update, hinit, pumpUpdateOne, viewOf, hst, hlt, hz, hpos]
  · simp [pump_update, hinit, pumpUpdateOne, viewOf, hst, hlt, hnz]
  · simp [pump_update, hinit, pumpUpdateOne, viewOf, hst,
      Nat.not_lt.mpr hge, is_valid_pump_transition]

/-- Witness for C8: pump 0 of `dosingWorld` (DOSING since time 0, run
duration 42000 ms, stored duty 92): at entry the duty 92 is written; at
100 ms the output is held; at 42000 ms the output is zeroed and the pump is
moved to COOLING_DOWN. -/
theorem pump_update_dosing_phase_witness :
    ((pump_update 0 dosingWorld).pwm 0 = 92
      ∧ (pump_update 0 dosingWorld).sm.pump_states 0 = PumpState.DOSING)
    ∧ (pump_update 100 dosingWorld).pwm 0 = dosingWorld.pwm 0
    ∧ ((pump_update 42000 dosingWorld).pwm 0 = 0
      ∧ (pump_update 42000 dosingWorld).sm.pump_states 0
          = PumpState.COOLING_DOWN) := by
  have h0 := pump_update_dosing_phase dosingWorld 0 0 rfl (by decide)
  have h1 := pump_update_dosing_phase dosingWorld 100 0 rfl (by decide)
  have h2 := pump_update_dosing_phase dosingWorld 42000 0 rfl (by decide)
  refine ⟨⟨?_, ?_⟩, ?_, ?_, ?_⟩
  · have := (h0.1 (by decide) (by decide)).1
    rw [this]
    decide
  · exact (h0.1 (by decide) (by decide)).2.1
  · exact (h1.2.1 (by decide) (by decide)).1
  · exact (h2.2.2 (by decide)).1
  · exact (h2.2.2 (by decide)).2.2.1

--=============================================================================
-- C6 and C1 (pump_ph_dose evaluations)
--=============================================================================

/-- C6: device MONITORING, all gates passing, set-point 6.0, fresh PID state,
default gains, pH 7.0, volume 20 L: `pump_ph_dose` reports success, selects
and starts the PH_DOWN pump (index 1; PH_UP stays IDLE), books a dose of
exactly 21.0 ml, and stores the run duration 21/30 · 60000 = 42000 ms for the
default 30 ml/min rate. -/
theorem ph_dose_monitoring_scenario :
    (pump_ph_dose 1000000 baseWorld 7 20).1 = true
    ∧ (pump_ph_dose 1000000 baseWorld 7 20).2.sm.pump_states 1
        = PumpState.PRIMING
    ∧ (pump_ph_dose 1000000 baseWorld 7 20).2.sm.pump_states 0
        = PumpState.IDLE
    ∧ ((pump_ph_dose 1000000 baseWorld 7 20).2.pumps 1).run_duration_ms
        = 42000
    ∧ ((pump_ph_dose 1000000 baseWorld 7 20).2.pumps 1).controller.total_ml_dosed
        = 21 := by
  refine ⟨?_, ?_, ?_, ?_, ?_⟩ <;>
    norm_num [pump_ph_dose, can_dose_safely, calculate_pid_dose,
      start_pump_dose, pump_transition_to, is_valid_pump_transition,
      calculate_pwm_duty, constrainQ, floatTrunc_eq, u32sub,
      baseWorld, baseManager, defaultPump, defaultController,
      PH_UP, PH_DOWN, PUMP_MIN_DOSE_INTERVAL, kHourMs,
      PUMP_MAX_DOSES_PER_HOUR, PUMP_MIN_DOSE_VOLUME, PUMP_MAX_DOSE_VOLUME,
      PUMP_TIMEOUT_MS, PUMP_DEFAULT_FLOW_RATE, PUMP_MAX_FLOW_RATE,
      DEFAULT_PH_KP, DEFAULT_PH_KI, DEFAULT_PH_KD, DEFAULT_PH_TARGET,
      PID_INTEGRAL_MIN, PID_INTEGRAL_MAX, Function.update_apply,
      abs_of_nonneg] <;> simp

/-- C1 (divergence exhibit): with every gate passing, fresh default PID
state and pH 6.1 in 10 L, the PID magnitude is 1.05 ml — below the 5.0 ml
minimum — yet `calculate_pid_dose` clamps the dose up to 5.0 ml, so the
below-minimum guard in `pump_ph_dose` cannot fire: the call starts a 5.0 ml
dose on PH_DOWN and returns true instead of being a no-op returning
false. -/
theorem ph_dose_small_dose_clamped_up :
    |8 * ((6 : ℚ) - 61 / 10) + 1 / 2 * ((6 : ℚ) - 61 / 10)
        + 2 * ((6 : ℚ) - 61 / 10)| * (10 / 10) < 5
    ∧ (calculate_pid_dose defaultController (61 / 10) 10).1 = 5
    ∧ (pump_ph_dose 1000000 baseWorld (61 / 10) 10).1 = true
    ∧ (pump_ph_dose 1000000 baseWorld (61 / 10) 10).2.sm.pump_states 1
        = PumpState.PRIMING
    ∧ ((pump_ph_dose 1000000 baseWorld (61 / 10) 10).2.pumps 1).controller.total_ml_dosed
        = 5 := by
  refine ⟨by rw [abs_of_nonpos (by norm_num)]; norm_num, ?_, ?_, ?_, ?_⟩ <;>
    norm_num [pump_ph_dose, can_dose_safely, calculate_pid_dose,
      start_pump_dose, pump_transition_to, is_valid_pump_transition,
      calculate_pwm_duty, constrainQ, floatTrunc_eq, u32sub,
      baseWorld, baseManager, defaultPump, defaultController,
      PH_UP, PH_DOWN, PUMP_MIN_DOSE_INTERVAL, kHourMs,
      PUMP_MAX_DOSES_PER_HOUR, PUMP_MIN_DOSE_VOLUME, PUMP_MAX_DOSE_VOLUME,
      PUMP_TIMEOUT_MS, PUMP_DEFAULT_FLOW_RATE, PUMP_MAX_FLOW_RATE,
      DEFAULT_PH_KP, DEFAULT_PH_KI, DEFAULT_PH_KD, DEFAULT_PH_TARGET,
      PID_INTEGRAL_MIN, PID_INTEGRAL_MAX, Function.update_apply,
      abs_of_nonneg]
